import Mathlib

/-!
# ReasonOS — shallow embedding and verification

A shallow embedding, in Lean 4, of the orchestration-and-governance core of
the ReasonOS repository (Python), together with theorems settling the frozen
claims about it.  Every definition below is translated from a named source
function; Python floats are modelled as exact rationals (`ℚ`), Python `dict`s
either as structures with `Option` fields for the keys whose absence the code
tests, or as association lists where the key set itself is at issue, and
effectful helpers (`new_*_id()`, `now_iso()`) are threaded as explicit
parameters.  Python exceptions are modelled with `Except`.
-/

namespace ReasonOS

/-! ## Python string primitives

Models of the pieces of Python's string/`re` behaviour that the embedded
functions use.  Characters are restricted to the ASCII range actually
exercised by the repository (Python's `\d`, `\s` and `str.lower` also cover
non-ASCII code points, which never occur in the data the claims concern). -/

/-- Python `\d` (ASCII fragment): a decimal digit. -/
def isPyDigit (c : Char) : Bool := c.isDigit

/-- Python `\s` (ASCII fragment): space, tab, newline, carriage return,
vertical tab, form feed. -/
def isPySpace (c : Char) : Bool :=
  c = ' ' || c = '\t' || c = '\n' || c = '\x0d' || c = '\x0b' || c = '\x0c'

/-- `leadsWith pat cs` : does `cs` start with `pat` (exact characters)? -/
def leadsWith : List Char → List Char → Bool
  | [], _ => true
  | _ :: _, [] => false
  | p :: ps, c :: cs => p = c && leadsWith ps cs

/-- Python's `pat in hay` substring test, on character lists.
The empty pattern is contained in everything, as in Python. -/
def strContains (hay pat : List Char) : Bool :=
  match hay with
  | [] => pat.isEmpty
  | _ :: t => leadsWith pat hay || strContains t pat

/-- Python `pat in hay` on strings. -/
def pyContains (hay pat : String) : Bool := strContains hay.toList pat.toList

/-- Python `str.lower()` (ASCII fragment). -/
def pyLower (s : String) : String := String.mk (s.toList.map Char.toLower)

/-- Case-insensitive prefix test against a lower-case pattern: models the
`re.IGNORECASE` matching of a literal such as `percent`. -/
def leadsWithCI : List Char → List Char → Bool
  | [], _ => true
  | _ :: _, [] => false
  | p :: ps, c :: cs => p = c.toLower && leadsWithCI ps cs

/-- Numeric value of a digit run (most significant first). -/
def natOfDigits (ds : List Char) : ℕ :=
  ds.foldl (fun a c => 10 * a + (c.toNat - 48)) 0

/-- Value of the decimal literal `ds.fs` (fraction part may be empty), as an
exact rational.  This models Python's `float(...)` of the captured group; the
claims never depend on binary-float rounding of the literal. -/
def ratOfParts (ds fs : List Char) : ℚ :=
  mkRat (natOfDigits ds * 10 ^ fs.length + natOfDigits fs) (10 ^ fs.length)

/-! ### Rational arithmetic, kernel-computable

Mathlib's `Rat.add`/`Rat.sub`/`abs` do not reduce under the kernel, so the
embedding computes with `mkRat` on numerators and denominators; the lemmas
`qAdd_eq`, `qSub_eq`, `qAbs_eq`, `qMul_eq` identify these with the ordinary
field operations, so theorems may be read with `+`, `-`, `|·|`, `*`. -/

/-- Addition on `ℚ` via `mkRat` (kernel-computable); equals `a + b`. -/
def qAdd (a b : ℚ) : ℚ := mkRat (a.num * b.den + b.num * a.den) (a.den * b.den)

/-- Subtraction on `ℚ` via `mkRat` (kernel-computable); equals `a - b`. -/
def qSub (a b : ℚ) : ℚ := mkRat (a.num * b.den - b.num * a.den) (a.den * b.den)

/-- Absolute value on `ℚ` (kernel-computable); equals `|a|`. -/
def qAbs (a : ℚ) : ℚ := if a.num < 0 then mkRat (-a.num) a.den else a

/-- Multiplication on `ℚ` via `mkRat` (kernel-computable); equals `a * b`. -/
def qMul (a b : ℚ) : ℚ := mkRat (a.num * b.num) (a.den * b.den)

theorem qAdd_eq (a b : ℚ) : qAdd a b = a + b := by
  unfold qAdd
  rw [Rat.mkRat_eq_div]
  have ha : ((a.den : ℚ)) ≠ 0 := by exact_mod_cast a.den_nz
  have hb : ((b.den : ℚ)) ≠ 0 := by exact_mod_cast b.den_nz
  push_cast
  conv_rhs => rw [← Rat.num_div_den a, ← Rat.num_div_den b]
  field_simp

theorem qSub_eq (a b : ℚ) : qSub a b = a - b := by
  unfold qSub
  rw [Rat.mkRat_eq_div]
  have ha : ((a.den : ℚ)) ≠ 0 := by exact_mod_cast a.den_nz
  have hb : ((b.den : ℚ)) ≠ 0 := by exact_mod_cast b.den_nz
  push_cast
  conv_rhs => rw [← Rat.num_div_den a, ← Rat.num_div_den b]
  field_simp
  ring

theorem qAbs_eq (a : ℚ) : qAbs a = |a| := by
  unfold qAbs
  split
  · rename_i h
    have h2 : a < 0 := by
      by_contra hc
      push_neg at hc
      rw [← Rat.num_nonneg] at hc
      omega
    rw [abs_of_neg h2, ← Rat.neg_mkRat, Rat.mkRat_self]
  · rename_i h
    rw [abs_of_nonneg]
    rw [← Rat.num_nonneg]
    omega

theorem qMul_eq (a b : ℚ) : qMul a b = a * b := by
  unfold qMul
  rw [Rat.mkRat_eq_div]
  have ha : ((a.den : ℚ)) ≠ 0 := by exact_mod_cast a.den_nz
  have hb : ((b.den : ℚ)) ≠ 0 := by exact_mod_cast b.den_nz
  push_cast
  conv_rhs => rw [← Rat.num_div_den a, ← Rat.num_div_den b]
  field_simp

/-- Python `str.split()` with no argument: split on runs of whitespace,
discarding empty pieces. -/
def splitWSAux (cs : List Char) : List (List Char) :=
  let step := fun (acc : List (List Char) × List Char) (c : Char) =>
    if isPySpace c then
      (if acc.2.isEmpty then acc else (acc.1 ++ [acc.2.reverse], []))
    else (acc.1, c :: acc.2)
  let r := cs.foldl step ([], [])
  if r.2.isEmpty then r.1 else r.1 ++ [r.2.reverse]

/-- Python `str.split()` on strings. -/
def pySplit (s : String) : List String :=
  (splitWSAux s.toList).map (fun w => String.mk w)

/-! ## The percent regex

Both `utils/text.py` and `consistency/contradiction_detector.py` call
`re.search` with the identical pattern and `re.IGNORECASE`.
This section models that one regex.  Greediness analysis: at a
fixed start position the engine commits to the maximal digit run (a shorter
`\d+` leaves a digit as the next character, which can satisfy neither the
fraction, `\s*`-then-literal, nor `%`), likewise to a maximal fraction run,
and to consuming all whitespace before the literal; the only genuine
backtracking choice is fraction-present versus fraction-absent, tried in that
order.  The search tries successive start positions left to right. -/

/-- After the captured number: `\s*` then `percent` (case-insensitive) or
`%`. -/
def percentSuffixOk (cs : List Char) : Bool :=
  let r := cs.dropWhile isPySpace
  leadsWithCI ['p', 'e', 'r', 'c', 'e', 'n', 't'] r ||
    (match r with
     | '%' :: _ => true
     | _ => false)

/-- Attempt to match the percent pattern anchored at the head of `cs`,
returning the captured numeric value. -/
def percentMatchAt (cs : List Char) : Option ℚ :=
  let ds := cs.takeWhile isPyDigit
  if ds.isEmpty then none
  else
    let rest := cs.drop ds.length
    let withFrac : Option ℚ :=
      match rest with
      | '.' :: rest2 =>
        let fs := rest2.takeWhile isPyDigit
        if fs.isEmpty then none
        else if percentSuffixOk (rest2.drop fs.length) then
          some (ratOfParts ds fs)
        else none
      | _ => none
    match withFrac with
    | some v => some v
    | none => if percentSuffixOk rest then some (ratOfParts ds []) else none

/-- `re.search` of the percent pattern: leftmost start position wins. -/
def percentSearch : List Char → Option ℚ
  | [] => none
  | c :: rest =>
    match percentMatchAt (c :: rest) with
    | some v => some v
    | none => percentSearch rest

/-- Source: `src/reasonos/utils/text.py`, `extract_percent_value`.
`re.search` of the number-then-percent pattern with
`re.IGNORECASE`, returning `float(group(1))` of the first match, or `None`. -/
def extract_percent_value (s : String) : Option ℚ := percentSearch s.toList

/-- Source: `src/reasonos/consistency/contradiction_detector.py`,
`extract_percent`.  Character-for-character the same algorithm as
`extract_percent_value`: the identical pattern string handed to the identical
`re.search` call, with the identical post-processing. -/
def extract_percent (s : String) : Option ℚ := percentSearch s.toList

/-- Sanity checks of the regex embedding against the interpreter's
behaviour: decimal and integer captures, a no-match input, and a
backtracking case (the first two digit runs are not followed by a percent
marker; the engine matches `5.3%`, not the later `4 PERCENT`). -/
theorem extract_percent_value_sanity :
    extract_percent_value "improves accuracy by 14.8 percent" =
      some (mkRat 74 5) ∧
    extract_percent_value "gains 15%" = some (mkRat 15 1) ∧
    extract_percent_value "no figure here" = none ∧
    extract_percent_value "12.5.3% and 4 PERCENT" = some (mkRat 53 10) := by
  decide

/-! ## Python number formatting

Models of `round(x, 2)` and the f-string conversions `{x}`, `{x:.1f}`,
`{x:.2f}` on the exact-rational stand-ins for Python floats.  Python rounds
half-to-even; ties on the binary float are approximated by exact-rational
ties, which the claims never exercise. -/

/-- Round a rational to the nearest integer, ties to even
(the rounding mode of Python's `round` and of float formatting). -/
def roundHalfEven (q : ℚ) : ℤ :=
  let d : ℤ := (q.den : ℤ)
  let f : ℤ := q.num.fdiv d
  let r2 : ℤ := 2 * (q.num - f * d)
  if r2 < d then f else if d < r2 then f + 1 else if f % 2 = 0 then f else f + 1

/-- Python `round(x, 2)`. -/
def pyRound2 (q : ℚ) : ℚ := mkRat (roundHalfEven (qMul q (mkRat 100 1))) 100

/-- Left-pad a digit string with zeros to width `k`. -/
def padZeros (k : ℕ) (s : String) : String :=
  String.mk (List.replicate (k - s.length) '0') ++ s

/-- Python `f-string` `{x:.2f}`. -/
def pyFormat2 (q : ℚ) : String :=
  let m := roundHalfEven (qMul q (mkRat 100 1))
  let sign := if m < 0 then "-" else ""
  let a := m.natAbs
  sign ++ toString (a / 100) ++ "." ++ padZeros 2 (toString (a % 100))

/-- Python `f-string` `{x:.1f}`. -/
def pyFormat1 (q : ℚ) : String :=
  let m := roundHalfEven (qMul q (mkRat 10 1))
  let sign := if m < 0 then "-" else ""
  let a := m.natAbs
  sign ++ toString (a / 10) ++ "." ++ toString (a % 10)

/-- Least `k ≤ 40` with `d ∣ 10 ^ k`, if any: the scale of a terminating
decimal. -/
def pow10Exp (d : ℕ) : Option ℕ := (List.range 41).find? (fun k => d ∣ 10 ^ k)

/-- Python `f-string` `{x}` ( = `repr` of the float): shortest decimal form,
with `.0` appended to integral values, e.g. `15.0`, `14.8`, `0.05`.
Reduced rationals extracted from decimal literals always have a
power-of-10-dividing denominator; the `/`-fallback is unreachable for them. -/
def pyFloatRepr (q : ℚ) : String :=
  let sign := if q.num < 0 then "-" else ""
  let n := q.num.natAbs
  let d := q.den
  match pow10Exp d with
  | some k =>
    let scaled := n * (10 ^ k / d)
    let ip := scaled / 10 ^ k
    let fp := scaled % 10 ^ k
    if k = 0 then sign ++ toString ip ++ ".0"
    else sign ++ toString ip ++ "." ++ padZeros k (toString fp)
  | none => sign ++ toString n ++ "/" ++ toString d

/-- A single-quote character as a string (used inside message literals). -/
def sq : String := String.mk [Char.ofNat 39]

/-- Sanity checks of the float-formatting embedding. -/
theorem pyFloatRepr_sanity :
    pyFloatRepr (mkRat 15 1) = "15.0" ∧
    pyFloatRepr (mkRat 74 5) = "14.8" ∧
    pyFloatRepr (mkRat 1 20) = "0.05" ∧
    pyFormat2 (mkRat 3 10) = "0.30" ∧
    pyFormat1 (mkRat 5 1) = "5.0" := by
  decide

/-! ## Accounting ledger

Source: `src/reasonos/accounting/ledger.py`, class `AccountingLedger`.
The mutable object is modelled as a record; each method is a state
transformer `AccountingLedger → AccountingLedger`.  The methods' unused
`reason` parameters are kept to mirror the signatures. -/

/-- One entry of `confidence_adjustments`:
`{"source": ..., "delta": ..., "reason": ...}`. -/
structure Adjustment where
  source : String
  delta : ℚ
  reason : String
deriving DecidableEq, Repr

/-- The `AccountingLedger` object state: the five attributes set in
`__init__` plus `is_blocked`. -/
structure AccountingLedger where
  total_cost : ℚ
  total_risk : ℚ
  base_confidence : ℚ
  confidence_adjustments : List Adjustment
  final_confidence : ℚ
  is_blocked : Bool
deriving DecidableEq, Repr

namespace AccountingLedger

/-- `AccountingLedger(base_confidence)`: `__init__`. -/
def init (base_confidence : ℚ) : AccountingLedger :=
  { total_cost := 0
    total_risk := 0
    base_confidence := base_confidence
    confidence_adjustments := []
    final_confidence := base_confidence
    is_blocked := false }

/-- `_recompute_final_confidence`: 0.0 when blocked, otherwise base plus the
sum of adjustment deltas, clamped to `[0, 1]`. -/
def recompute (L : AccountingLedger) : AccountingLedger :=
  if L.is_blocked then { L with final_confidence := 0 }
  else
    let conf := L.confidence_adjustments.foldl (fun c adj => qAdd c adj.delta)
      L.base_confidence
    { L with final_confidence := max 0 (min 1 conf) }

/-- `set_base_confidence`. -/
def set_base_confidence (L : AccountingLedger) (confidence : ℚ) :
    AccountingLedger :=
  recompute { L with base_confidence := confidence }

/-- `add_cost` (the `reason` argument is recorded nowhere, as in the
source). -/
def add_cost (L : AccountingLedger) (amount : ℚ) (_reason : String) :
    AccountingLedger :=
  { L with total_cost := qAdd L.total_cost amount }

/-- `add_risk`. -/
def add_risk (L : AccountingLedger) (amount : ℚ) (_reason : String) :
    AccountingLedger :=
  { L with total_risk := qAdd L.total_risk amount }

/-- `adjust_confidence`. -/
def adjust_confidence (L : AccountingLedger) (delta : ℚ)
    (source reason : String) : AccountingLedger :=
  recompute
    { L with confidence_adjustments :=
        L.confidence_adjustments ++ [⟨source, delta, reason⟩] }

/-- `force_block`: marks the ledger blocked, forces risk to 1.0, appends a
cancelling adjustment when the current confidence is positive, and zeroes the
confidence. -/
def force_block (L : AccountingLedger) : AccountingLedger :=
  let L1 := { L with is_blocked := true, total_risk := 1 }
  let L2 :=
    if 0 < L1.final_confidence then
      { L1 with confidence_adjustments :=
          L1.confidence_adjustments ++
            [⟨"policy_block", -L1.final_confidence, "Policy forced block"⟩] }
    else L1
  { L2 with final_confidence := 0 }

/-- Values of the snapshot dict (`get_snapshot` returns a heterogeneous
Python dict). -/
inductive SnapVal where
  | num (q : ℚ)
  | adjs (l : List Adjustment)
deriving DecidableEq, Repr

/-- `get_snapshot`: the dict literal returned to the RSL, as an ordered
association list of its keys.  The method reads the state and builds a fresh
dict; it performs no mutation, which the pure type makes evident. -/
def get_snapshot (L : AccountingLedger) : List (String × SnapVal) :=
  [("total_cost", .num (pyRound2 L.total_cost)),
   ("total_risk", .num (pyRound2 L.total_risk)),
   ("base_confidence", .num (pyRound2 L.base_confidence)),
   ("confidence_adjustments", .adjs L.confidence_adjustments),
   ("final_confidence", .num (pyRound2 L.final_confidence))]

end AccountingLedger

/-- One call to a mutating `AccountingLedger` method, for quantifying over
call sequences. -/
inductive LedgerOp where
  | add_cost (amount : ℚ) (reason : String)
  | add_risk (amount : ℚ) (reason : String)
  | adjust_confidence (delta : ℚ) (source reason : String)
  | set_base_confidence (confidence : ℚ)
  | force_block
deriving DecidableEq, Repr

/-- Apply one ledger method call. -/
def applyOp (L : AccountingLedger) : LedgerOp → AccountingLedger
  | .add_cost a r => L.add_cost a r
  | .add_risk a r => L.add_risk a r
  | .adjust_confidence d s r => L.adjust_confidence d s r
  | .set_base_confidence c => L.set_base_confidence c
  | .force_block => L.force_block

/-- Apply a sequence of ledger method calls, first call first. -/
def applyOps (L : AccountingLedger) (ops : List LedgerOp) : AccountingLedger :=
  ops.foldl applyOp L

/-! ## Contradiction detector

Source: `src/reasonos/consistency/contradiction_detector.py`.
The effectful helpers are threaded explicitly: `newId k` stands for the
`new_contradiction_id()` obtained by the `k`-th successful detection of the
call, and `now` for `now_iso()`. -/

/-- A memory-write record, restricted to the keys
`detect_numeric_contradictions` reads (`type`, `content`, `memory_id`);
`confidence`, `derived_from_step_ids` and `written_at` are never consulted. -/
structure MemoryItem where
  memory_id : String
  type : String
  content : String
deriving DecidableEq, Repr

/-- The `detected_by` sub-dict of a contradiction record. -/
structure DetectedBy where
  type : String
  name : String
deriving DecidableEq, Repr

/-- A contradiction record as built by `detect_numeric_contradictions`. -/
structure ContradictionRec where
  contradiction_id : String
  step_ids : List String
  description : String
  severity : String
  detected_by : DetectedBy
  detected_at : String
  prior_memory_id : String
  prior_value : ℚ
  current_value : ℚ
deriving DecidableEq, Repr

/-- The contradiction dict literal built inside the detector's loop. -/
def mkContradiction (cid now : String) (item : MemoryItem)
    (memory_value current_value : ℚ) (unit : String) (threshold : ℚ) :
    ContradictionRec :=
  { contradiction_id := cid
    step_ids := ["S3"]
    description :=
      "Numeric conflict detected: current claim states " ++
        pyFloatRepr current_value ++ unit ++ ", but prior memory recorded " ++
        pyFloatRepr memory_value ++ unit ++ " for the same subject. " ++
        "Difference of " ++ pyFormat1 (qAbs (qSub memory_value current_value)) ++
        unit ++ " exceeds threshold of " ++ pyFloatRepr threshold ++ unit ++ "."
    severity := "HIGH"
    detected_by := ⟨"RULE", "numeric_conflict_detector"⟩
    detected_at := now
    prior_memory_id := item.memory_id
    prior_value := memory_value
    current_value := current_value }

/-- The detector's `for` loop; `k` counts contradictions appended so far. -/
def detectAux (newId : ℕ → String) (now : String) (current_subject : String)
    (current_value : ℚ) (unit : String) (threshold : ℚ) :
    ℕ → List MemoryItem → List ContradictionRec
  | _, [] => []
  | k, item :: rest =>
    if item.type ≠ "FACT" then
      detectAux newId now current_subject current_value unit threshold k rest
    else
      let content_lower := pyLower item.content
      let subject_parts := pySplit (pyLower current_subject)
      if ¬ (subject_parts.all (fun part => pyContains content_lower part)) then
        detectAux newId now current_subject current_value unit threshold k rest
      else
        match extract_percent item.content with
        | none =>
          detectAux newId now current_subject current_value unit threshold k rest
        | some memory_value =>
          if threshold < qAbs (qSub memory_value current_value) then
            mkContradiction (newId k) now item memory_value current_value unit
                threshold ::
              detectAux newId now current_subject current_value unit threshold
                (k + 1) rest
          else
            detectAux newId now current_subject current_value unit threshold k
              rest

/-- `detect_numeric_contradictions(memory_items, current_subject,
current_value, unit, threshold)`: scans FACT memories whose lower-cased
content contains every whitespace token of the lower-cased subject, extracts
their percent, and flags a HIGH contradiction when it differs from the
current value by more than the threshold.  Pure: the memory list is
read-only. -/
def detect_numeric_contradictions (newId : ℕ → String) (now : String)
    (memory_items : List MemoryItem) (current_subject : String)
    (current_value : ℚ) (unit : String) (threshold : ℚ) :
    List ContradictionRec :=
  detectAux newId now current_subject current_value unit threshold 0
    memory_items

/-! ## Rule verifier

Source: `src/reasonos/verifiers/rule_verifier.py`. -/

/-- `SCOPE_LIMITERS`. -/
def SCOPE_LIMITERS : List String :=
  ["in the indoor setting", "under condition", "controlled conditions",
   "specific setting", "limited to"]

/-- `" ".join(evidence_sentences).lower()`. -/
def combinedEvidence (evidence_sentences : List String) : String :=
  pyLower (String.intercalate " " evidence_sentences)

/-- The evidence-percent loop: first sentence with an extractable percent. -/
def evidencePercent (evidence_sentences : List String) : Option ℚ :=
  evidence_sentences.findSome? extract_percent_value

/-- The scope-limiter loop: first limiter phrase contained in the combined
lower-cased evidence. -/
def scopeLimiterFound (evidence_sentences : List String) : Option String :=
  SCOPE_LIMITERS.find?
    (fun limiter => pyContains (combinedEvidence evidence_sentences) limiter)

/-- Issue string of the `diff <= 0.5` branch. -/
def roundingIssue (claim_percent evidence_percent : ℚ) : String :=
  "Rounding discrepancy: claim states " ++ pyFloatRepr claim_percent ++
    "%, evidence shows " ++ pyFloatRepr evidence_percent ++ "%"

/-- Issue string of the `diff > 0.5` branch. -/
def mismatchIssue (claim_percent evidence_percent : ℚ) : String :=
  "Numeric mismatch: claim states " ++ pyFloatRepr claim_percent ++
    "%, evidence shows " ++ pyFloatRepr evidence_percent ++ "%"

/-- Issue string appended when a scope limiter was found. -/
def scopeIssue (limiter : String) : String :=
  "Scope limitation detected: " ++ sq ++ limiter ++ sq

/-- `verify_claim_support(claim, evidence_sentences)`: the deterministic
claim/evidence decision table, returning `(status, confidence, issues)`. -/
def verify_claim_support (claim : String) (evidence_sentences : List String) :
    String × ℚ × List String :=
  if evidence_sentences.isEmpty then
    ("WEAK", mkRat 3 10, ["No evidence sentences provided"])
  else
    let claim_percent := extract_percent_value claim
    let claim_lower := pyLower claim
    let has_model_x := pyContains claim_lower "model x"
    let has_dataset_y := pyContains claim_lower "dataset y"
    let combined := combinedEvidence evidence_sentences
    let evidence_has_model_x := pyContains combined "model x"
    let evidence_has_dataset_y := pyContains combined "dataset y"
    let evidence_percent := evidencePercent evidence_sentences
    let scope_limiter_found := scopeLimiterFound evidence_sentences
    if !evidence_has_model_x && has_model_x then
      ("WEAK", mkRat 7 20, ["Evidence does not mention Model X"])
    else if !evidence_has_dataset_y && has_dataset_y then
      ("WEAK", mkRat 7 20, ["Evidence does not mention Dataset Y"])
    else if claim_percent.isSome && evidence_percent.isNone then
      ("WEAK", mkRat 2 5, ["Evidence does not contain a numeric improvement value"])
    else
      match claim_percent, evidence_percent with
      | some cp, some ep =>
        let diff := qAbs (qSub cp ep)
        if diff = 0 then
          match scope_limiter_found with
          | some limiter => ("PARTIALLY_SUPPORTED", mkRat 3 4, [scopeIssue limiter])
          | none => ("SUPPORTED", mkRat 9 10, [])
        else if diff ≤ mkRat 1 2 then
          match scope_limiter_found with
          | some limiter =>
            ("PARTIALLY_SUPPORTED", mkRat 13 20,
              [roundingIssue cp ep, scopeIssue limiter])
          | none => ("PARTIALLY_SUPPORTED", mkRat 3 4, [roundingIssue cp ep])
        else ("WEAK", mkRat 9 20, [mismatchIssue cp ep])
      | _, _ =>
        match scope_limiter_found with
        | some limiter => ("PARTIALLY_SUPPORTED", mkRat 7 10, [scopeIssue limiter])
        | none => ("SUPPORTED", mkRat 17 20, [])

/-! ## Step records and structural verification -/

/-- An evidence item, restricted to the keys the embedded functions read
(`verify_step` reads only `evidence_id`; `source`/`content`/`created_at` are
payload). -/
structure EvidenceItem where
  evidence_id : String
  source : String
  content : String
deriving DecidableEq, Repr

/-- A verification object as produced by `build_verification`. -/
structure Verification where
  result : String
  confidence : ℚ
  checked_evidence_ids : List String
  verified_at : String
  notes : String
deriving DecidableEq, Repr

/-- A revision record; the embedded functions only ever read the length of a
step's revision list, so the payload is reduced to its id. -/
structure RevisionRec where
  revision_id : String
deriving DecidableEq, Repr

/-- An executor spec dict `{type, name, config}`. -/
structure ExecutorSpec where
  type : String
  name : String
  config : List (String × String)
deriving DecidableEq, Repr

/-- The union-shaped `step["executor"]` value: sometimes a bare string
(`"model"`, `"tool"`), sometimes a structured spec dict. -/
inductive PyExecutor where
  | str (s : String)
  | spec (e : ExecutorSpec)
deriving DecidableEq, Repr

/-- A step dict.  Keys whose absence the source tests (`step_id`, `action`,
`status`, `executor`, `execution_output`, `verification`) are `Option`;
`evidence_required`, `evidence` and `revisions` are read with
`.get(..., default)` so the default stands for absence; `step_index` is
present on every step of the RSL data model (every builder sets it), so it is
total. -/
structure Step where
  step_id : Option String
  step_index : ℕ
  action : Option String
  status : Option String
  executor : Option PyExecutor
  evidence_required : Bool
  evidence : List EvidenceItem
  execution_output : Option String
  verification : Option Verification
  revisions : List RevisionRec
deriving DecidableEq, Repr

/-- `verify_step(step)`: structural validation, raising `VerificationError`
(modelled as `Except.error` with the message) when a required field is
absent, when evidence is required but empty, or when `execution_output` is
unset; otherwise the SUPPORTED verification referencing all evidence ids
present.  `now` threads `now_iso()`. -/
def verify_step (now : String) (step : Step) : Except String Verification :=
  if step.step_id.isNone then .error "Missing required field: step_id"
  else if step.action.isNone then .error "Missing required field: action"
  else if step.status.isNone then .error "Missing required field: status"
  else if step.executor.isNone then .error "Missing required field: executor"
  else
    let sid := step.step_id.getD ""
    if step.evidence_required && step.evidence.isEmpty then
      .error ("Step " ++ sid ++ " requires evidence but none provided")
    else
      let checked_evidence_ids := step.evidence.map (fun ev => ev.evidence_id)
      match step.execution_output with
      | none => .error ("Step " ++ sid ++ " has no execution_output")
      | some _ =>
        .ok { result := "SUPPORTED"
              confidence := mkRat 19 20
              checked_evidence_ids := checked_evidence_ids
              verified_at := now
              notes :=
                if !step.evidence.isEmpty then
                  "Verified with " ++ toString step.evidence.length ++
                    " evidence item(s)"
                else "Verified by structural and logical checks" }

/-! ## Policy engine

Source: `src/reasonos/policy/policy_engine.py`.  The policy document is a
JSON object read with `.get(key, default)` everywhere, so every key is
`Option` and the engine applies the source's defaults at the use site. -/

/-- Python `d.get(k)` on a string-keyed dict modelled as an association
list. -/
def dictGet {α : Type} (d : List (String × α)) (k : String) : Option α :=
  (d.find? (fun p => p.1 == k)).map (fun p => p.2)

/-- One entry of `domain_defaults`. -/
structure DomainDefaults where
  evidence_required_steps : Option (List String)
  max_revisions_per_step : Option ℕ
  contradiction_penalty : Option ℚ
  revision_penalty : Option ℚ
  min_confidence_to_finalize : Option ℚ
  fail_closed_if_unverified : Option Bool
deriving DecidableEq, Repr

/-- The empty dict a missing domain falls back to. -/
def emptyDomainDefaults : DomainDefaults := ⟨none, none, none, none, none, none⟩

/-- The `global_rules` object. -/
structure GlobalRules where
  block_if_confidence_below : Option ℚ
  block_message : Option String
  allowed_domains : Option (List String)
deriving DecidableEq, Repr

/-- The empty dict a missing `global_rules` falls back to. -/
def emptyGlobalRules : GlobalRules := ⟨none, none, none⟩

/-- The `routing` object. -/
structure Routing where
  step_overrides : List (String × String)
  domain_overrides : List (String × String)
  default_model_executor : Option String
deriving DecidableEq, Repr

/-- The empty dict a missing `routing` falls back to. -/
def emptyRouting : Routing := ⟨[], [], none⟩

/-- A loaded policy document. -/
structure Policy where
  policy_version : Option String
  domain_defaults : List (String × DomainDefaults)
  global_rules : Option GlobalRules
  routing : Option Routing
deriving DecidableEq, Repr

/-- A final-conclusion record. -/
structure FinalConclusion where
  content : String
  confidence : ℚ
  supported_step_ids : List String
  unresolved_contradictions : List String
  finalized_at : String
deriving DecidableEq, Repr

/-- The blocking reason a missing-verification step produces. -/
def missingVerificationReason (step : Step) : String :=
  "Step " ++ toString step.step_index ++ " missing verification."

/-- The blocking reason an UNKNOWN step produces. -/
def unknownReason (step : Step) : String :=
  "Step S" ++ toString (step.step_index + 1) ++ " " ++
    step.action.getD "Unknown Action" ++ " is UNKNOWN (Policy Violation)."

/-- The blocking reason a WEAK evidence-required step produces. -/
def weakReason (step : Step) : String :=
  "Step S" ++ toString (step.step_index + 1) ++ " " ++
    step.action.getD "Unknown Action" ++ " is WEAK."

/-- The `fail_closed_if_unverified` loop of `enforce_finalization_policy`:
first step, in list order, that is missing verification while
evidence-required, has result UNKNOWN, or has result WEAK while
evidence-required; yields its blocking reason. -/
def failClosedScan : List Step → Option String
  | [] => none
  | step :: rest =>
    match step.verification with
    | none =>
      if step.evidence_required then some (missingVerificationReason step)
      else failClosedScan rest
    | some v =>
      if v.result == "UNKNOWN" then some (unknownReason step)
      else if v.result == "WEAK" && step.evidence_required then
        some (weakReason step)
      else failClosedScan rest

/-- `enforce_finalization_policy(policy, domain, final_conclusion, steps)`. -/
def enforce_finalization_policy (policy : Policy) (domain : String)
    (final_conclusion : FinalConclusion) (steps : List Step) :
    FinalConclusion :=
  let dd := (dictGet policy.domain_defaults domain).getD emptyDomainDefaults
  let gr := policy.global_rules.getD emptyGlobalRules
  let fail_closed := dd.fail_closed_if_unverified.getD false
  let min_confidence := dd.min_confidence_to_finalize.getD 0
  let global_block_threshold := gr.block_if_confidence_below.getD 0
  let block_message := gr.block_message.getD "Output blocked by policy."
  let scan := if fail_closed then failClosedScan steps else none
  let current_confidence := final_conclusion.confidence
  let block_reason :=
    match scan with
    | some r => some r
    | none =>
      if current_confidence < min_confidence then
        some ("Confidence " ++ pyFormat2 current_confidence ++
          " is below domain minimum " ++ pyFormat2 min_confidence ++ ".")
      else if current_confidence < global_block_threshold then
        some ("Confidence " ++ pyFormat2 current_confidence ++
          " is below global threshold " ++ pyFormat2 global_block_threshold ++
          ".")
      else none
  match block_reason with
  | none => final_conclusion
  | some reason =>
    { final_conclusion with
        content := block_message ++ " Reason: " ++ reason
        confidence := 0 }

/-! ## Router

Source: `src/reasonos/routing/router.py`. -/

/-- The routing tail of `route_executor` shared by every non-TOOL case: the
domain override is applied first and the step override second, so a
step-position override takes precedence over a domain override, and the
default model executor (`"gpt_stub"` when unset) is the fallback. -/
def modelRouteFallback (policy : Policy) (domain : String) (step : Step) :
    ExecutorSpec :=
  let routing := policy.routing.getD emptyRouting
  let default_executor := routing.default_model_executor.getD "gpt_stub"
  let logical_id := "S" ++ toString (step.step_index + 1)
  let executor_name := default_executor
  let executor_name :=
    match dictGet routing.domain_overrides domain with
    | some n => n
    | none => executor_name
  let executor_name :=
    match dictGet routing.step_overrides logical_id with
    | some n => n
    | none => executor_name
  ⟨"MODEL", executor_name, []⟩

/-- `route_executor(policy, domain, step)`: a bare `"tool"` string executor
becomes the TOOL spec, an already-structured TOOL spec is preserved, and
every other step is routed through overrides to a MODEL spec. -/
def route_executor (policy : Policy) (domain : String) (step : Step) :
    ExecutorSpec :=
  match step.executor with
  | some (.str s) =>
    if pyLower s == "tool" then ⟨"TOOL", "tool_executor", []⟩
    else modelRouteFallback policy domain step
  | some (.spec e) =>
    if e.type == "TOOL" then e else modelRouteFallback policy domain step
  | none => modelRouteFallback policy domain step

/-- `resolve_and_attach_executor(policy, domain, step)`: stores the resolved
spec into the step's `executor` field (the in-place dict mutation becomes a
functional update). -/
def resolve_and_attach_executor (policy : Policy) (domain : String)
    (step : Step) : Step :=
  { step with executor := some (.spec (route_executor policy domain step)) }

/-! ## RSL documents -/

/-- The `inputs` of a verification task. -/
structure TaskInputs where
  paragraph : Option String
  document_path : Option String
deriving DecidableEq, Repr

/-- A task record. -/
structure TaskRec where
  task_id : String
  objective : String
  domain : String
  created_at : String
  inputs : TaskInputs
deriving DecidableEq, Repr

/-- A run record (the fields the embedded functions read). -/
structure RunRec where
  run_id : String
  status : String
deriving DecidableEq, Repr

/-- An RSL document, restricted to the top-level keys the diff and replay
engines read (`memory_writes` and `audit` are carried opaquely by both). -/
structure RSLDocument where
  rsl_version : String
  task : TaskRec
  run : RunRec
  steps : List Step
  contradictions : List ContradictionRec
  final_conclusion : FinalConclusion
deriving DecidableEq, Repr

/-! ## Diff engine

Source: `src/reasonos/diff/run_diff.py`. -/

/-- A before/after value in a field diff (string-like, numeric, or a
revision count). -/
inductive DiffVal where
  | str (s : Option String)
  | num (q : Option ℚ)
  | count (n : ℕ)
deriving DecidableEq, Repr

/-- One field-level before/after pair. -/
structure FieldChange where
  field : String
  before : DiffVal
  after : DiffVal
deriving DecidableEq, Repr

/-- One entry of `step_diffs`. -/
inductive StepDiffEntry where
  | added (step_index : ℕ) (details : String)
  | removed (step_index : ℕ) (details : String)
  | modified (step_index : ℕ) (step_id_a : Option String)
      (changes : List FieldChange)
deriving DecidableEq, Repr

/-- The `conclusion_diff` object. -/
structure ConclusionDiff where
  type : String
  changes : List FieldChange
deriving DecidableEq, Repr

/-- The result of `diff_runs`. -/
structure RunDiff where
  summary : String
  step_diffs : List StepDiffEntry
  conclusion_diff : Option ConclusionDiff
deriving DecidableEq, Repr

/-- Insert into a Python dict modelled as an association list: a later
assignment to an existing key replaces the value in place, a new key is
appended. -/
def insertReplace (m : List (ℕ × Step)) (k : ℕ) (v : Step) :
    List (ℕ × Step) :=
  if (m.find? (fun p => p.1 == k)).isSome then
    m.map (fun p => if p.1 == k then (k, v) else p)
  else m ++ [(k, v)]

/-- The dict comprehension mapping each step's `step_index` to the step. -/
def stepIndexMap (steps : List Step) : List (ℕ × Step) :=
  steps.foldl (fun m s => insertReplace m s.step_index s) []

/-- Lookup in the step-index dict. -/
def lookupIdx (m : List (ℕ × Step)) (k : ℕ) : Option Step :=
  (m.find? (fun p => p.1 == k)).map (fun p => p.2)

/-- Insert into an ascending list. -/
def insertSorted (x : ℕ) : List ℕ → List ℕ
  | [] => [x]
  | y :: ys => if x ≤ y then x :: y :: ys else y :: insertSorted x ys

/-- Python `sorted` on a list of naturals. -/
def sortNat (l : List ℕ) : List ℕ := l.foldr insertSorted []

/-- Duplicate removal (Python's `set(...)`; the subsequent `sorted`
canonicalizes the order, so any duplicate-free list of the same members is a
faithful model of the set). -/
def dedupNat : List ℕ → List ℕ
  | [] => []
  | x :: xs => if x ∈ dedupNat xs then dedupNat xs else x :: dedupNat xs

/-- The per-shared-index field comparison of `diff_runs`: the four compared
fields, in the source's order. -/
def stepChanges (s_a s_b : Step) : List FieldChange :=
  (if s_a.execution_output ≠ s_b.execution_output then
      [⟨"execution_output", .str s_a.execution_output,
        .str s_b.execution_output⟩]
    else []) ++
  (let ra : Option String := s_a.verification.map (fun v => v.result)
   let rb : Option String := s_b.verification.map (fun v => v.result)
   if ra ≠ rb then [⟨"verification.result", .str ra, .str rb⟩] else []) ++
  (let ca : Option ℚ := s_a.verification.map (fun v => v.confidence)
   let cb : Option ℚ := s_b.verification.map (fun v => v.confidence)
   if ca ≠ cb then [⟨"verification.confidence", .num ca, .num cb⟩] else []) ++
  (if s_a.revisions.length ≠ s_b.revisions.length then
      [⟨"revisions_count", .count s_a.revisions.length,
        .count s_b.revisions.length⟩]
    else [])

/-- `sorted(set(keys_a | keys_b))`: the aligned index axis of the diff. -/
def diffAllIndices (run_a run_b : RSLDocument) : List ℕ :=
  sortNat (dedupNat
    ((stepIndexMap run_a.steps).map (fun p => p.1) ++
      (stepIndexMap run_b.steps).map (fun p => p.1)))

/-- The loop body of `diff_runs` for one index: ADDED when only run B has the
index, REMOVED when only run A has it, MODIFIED when both have it and a
compared field differs, nothing when the steps agree. -/
def diffStepEntry (steps_a_map steps_b_map : List (ℕ × Step)) (idx : ℕ) :
    Option StepDiffEntry :=
  match lookupIdx steps_a_map idx, lookupIdx steps_b_map idx with
  | none, _ => some (.added idx "Step present in Run B but not Run A")
  | some _, none => some (.removed idx "Step present in Run A but not Run B")
  | some s_a, some s_b =>
    let diffs := stepChanges s_a s_b
    if diffs.isEmpty then none else some (.modified idx s_a.step_id diffs)

/-- The `step_diffs` list of `diff_runs`. -/
def diffStepDiffs (run_a run_b : RSLDocument) : List StepDiffEntry :=
  (diffAllIndices run_a run_b).filterMap
    (diffStepEntry (stepIndexMap run_a.steps) (stepIndexMap run_b.steps))

/-- The `conclusion_diff` of `diff_runs`: content and confidence of the two
final conclusions. -/
def diffConclusion (run_a run_b : RSLDocument) : Option ConclusionDiff :=
  let fc_a := run_a.final_conclusion
  let fc_b := run_b.final_conclusion
  let fc_diffs :=
    (if fc_a.content ≠ fc_b.content then
        [⟨"content", .str (some fc_a.content), .str (some fc_b.content)⟩]
      else []) ++
    (if fc_a.confidence ≠ fc_b.confidence then
        [⟨"confidence", .num (some fc_a.confidence),
          .num (some fc_b.confidence)⟩]
      else [])
  if fc_diffs.isEmpty then none else some ⟨"MODIFIED", fc_diffs⟩

/-- The one-line human-readable summary of `diff_runs`. -/
def diffSummary (step_diffs : List StepDiffEntry)
    (conclusion_diff : Option ConclusionDiff) : String :=
  if step_diffs.isEmpty && conclusion_diff.isNone then
    "Runs are equivalent except for metadata."
  else
    let parts :=
      (if conclusion_diff.isSome then ["Final conclusion changed"] else []) ++
      (if !step_diffs.isEmpty then
          ["Step execution/verification changed in " ++
            toString step_diffs.length ++ " step(s)"]
        else [])
    String.intercalate " and " parts ++ "."

/-- `diff_runs(run_a, run_b)`: total — the Python function performs no
raising operation on RSL documents (whose steps all carry an integer
`step_index`), and the embedding is a plain function. -/
def diff_runs (run_a run_b : RSLDocument) : RunDiff :=
  let step_diffs := diffStepDiffs run_a run_b
  let conclusion_diff := diffConclusion run_a run_b
  ⟨diffSummary step_diffs conclusion_diff, step_diffs, conclusion_diff⟩

/-! ## Replay engine

Source: `src/reasonos/replay/replay_engine.py`.  File resolution and JSON
parsing are modelled as the already-loaded document.  The call into the
kernel passes the keyword arguments `enable_memory_writes` and
`parent_run_id`, which `run_paper_verification_task` (kernel.py) does not
declare — the replay module's own comment records that the kernel would need
to be modified to accept them — so Python raises `TypeError` at the call
before executing any kernel code.  The embedding checks the keyword names
against the kernel's parameter list exactly as the interpreter does. -/

/-- An error raised by `replay_run`. -/
inductive ReplayError where
  | valueError (msg : String)
  | typeError (msg : String)
  | kernelReached
deriving DecidableEq, Repr

/-- The parameter names of `run_paper_verification_task` in kernel.py:
`(paragraph, document_path, memory_path=None, policy_path=...)`. -/
def run_paper_verification_task_params : List String :=
  ["paragraph", "document_path", "memory_path", "policy_path"]

/-- The keyword-argument names `replay_run` passes to the kernel. -/
def replay_call_kwargs : List String :=
  ["paragraph", "document_path", "policy_path", "memory_path",
   "enable_memory_writes", "parent_run_id"]

/-- `replay_run(original_run_path)` on the loaded document: unsupported
domains raise `ValueError`; for the supported domain the kernel call raises
`TypeError` because of the undeclared keyword arguments (`kernelReached`
marks the branch the interpreter can never take, guarded by the
decidably-false keyword check). -/
def replay_run (original_run : RSLDocument) :
    Except ReplayError (RSLDocument × RSLDocument) :=
  let domain := original_run.task.domain
  if domain ≠ "research_verification" then
    .error (.valueError ("Replay not supported for domain: " ++ domain))
  else if replay_call_kwargs.all
      (fun k => run_paper_verification_task_params.contains k) then
    .error .kernelReached
  else
    .error (.typeError
      ("run_paper_verification_task() got an unexpected keyword argument " ++
        sq ++ "enable_memory_writes" ++ sq))

/-! ## Shared ledger lemmas -/

/-- `_recompute_final_confidence` always lands in `[0, 1]`. -/
theorem recompute_range (L : AccountingLedger) :
    0 ≤ (AccountingLedger.recompute L).final_confidence ∧
      (AccountingLedger.recompute L).final_confidence ≤ 1 := by
  unfold AccountingLedger.recompute
  split
  · simp
  · refine ⟨le_max_left 0 _, max_le (by norm_num) (min_le_left 1 _)⟩

/-- Recomputing a blocked ledger leaves the block and zero confidence. -/
theorem recompute_blocked (L : AccountingLedger)
    (hb : L.is_blocked = true) :
    (AccountingLedger.recompute L).is_blocked = true ∧
      (AccountingLedger.recompute L).final_confidence = 0 := by
  unfold AccountingLedger.recompute
  rw [if_pos hb]
  exact ⟨hb, rfl⟩

/-- `force_block` leaves confidence 0, risk 1, and the block flag set. -/
theorem force_block_state (L : AccountingLedger) :
    (L.force_block).final_confidence = 0 ∧ (L.force_block).total_risk = 1 ∧
      (L.force_block).is_blocked = true := by
  unfold AccountingLedger.force_block
  dsimp only
  split <;> exact ⟨rfl, rfl, rfl⟩

/-- A single method call preserves the `[0, 1]` confidence range. -/
theorem applyOp_range (L : AccountingLedger) (op : LedgerOp)
    (h0 : 0 ≤ L.final_confidence) (h1 : L.final_confidence ≤ 1) :
    0 ≤ (applyOp L op).final_confidence ∧
      (applyOp L op).final_confidence ≤ 1 := by
  cases op with
  | add_cost a r => exact ⟨h0, h1⟩
  | add_risk a r => exact ⟨h0, h1⟩
  | adjust_confidence d s r => exact recompute_range _
  | set_base_confidence c => exact recompute_range _
  | force_block =>
    have h := force_block_state L
    exact ⟨le_of_eq h.1.symm, le_of_eq_of_le h.1 (by norm_num)⟩

/-- A single method call preserves "blocked with zero confidence". -/
theorem applyOp_blocked (L : AccountingLedger) (op : LedgerOp)
    (hb : L.is_blocked = true) (hf : L.final_confidence = 0) :
    (applyOp L op).is_blocked = true ∧ (applyOp L op).final_confidence = 0 := by
  cases op with
  | add_cost a r => exact ⟨hb, hf⟩
  | add_risk a r => exact ⟨hb, hf⟩
  | adjust_confidence d s r => exact recompute_blocked _ hb
  | set_base_confidence c => exact recompute_blocked _ hb
  | force_block =>
    have h := force_block_state L
    exact ⟨h.2.2, h.1⟩

/-- Induction principle for call sequences. -/
theorem applyOps_induction (P : AccountingLedger → Prop)
    (step : ∀ L op, P L → P (applyOp L op)) :
    ∀ (ops : List LedgerOp) (L : AccountingLedger), P L → P (applyOps L ops)
  | [], _, h => h
  | op :: rest, L, h =>
    applyOps_induction P step rest (applyOp L op) (step L op h)

/-! ## Claims -/

/-- **C10** — The two percent-extraction functions are extensionally equal:
`utils.text.extract_percent_value` and
`consistency.contradiction_detector.extract_percent` return the same result
on every input string (both are the leftmost match of the
number-then-`percent`-or-`%` pattern, case-insensitively, or `none`). -/
theorem c10_extract_percent_agree :
    ∀ s : String, extract_percent_value s = extract_percent s :=
  fun _ => rfl

/-- A ledger used to exhibit the `get_snapshot` field set: one unrounded
adjustment delta. -/
def c8Ledger : AccountingLedger :=
  (AccountingLedger.init 0).adjust_confidence (mkRat 123 1000) "verifier"
    "seed adjustment"

/-- **C8 counterexample** — the snapshot of a concrete ledger has no
`is_blocked` key at all, and the numeric `delta` inside
`confidence_adjustments` is passed through unrounded, so the claim that the
snapshot contains `is_blocked` with every numeric field rounded to 2 decimals
fails on the code. -/
theorem c8_counterexample :
    dictGet (AccountingLedger.get_snapshot c8Ledger) "is_blocked" = none ∧
    dictGet (AccountingLedger.get_snapshot c8Ledger) "confidence_adjustments" =
      some (.adjs [⟨"verifier", mkRat 123 1000, "seed adjustment"⟩]) ∧
    pyRound2 (mkRat 123 1000) ≠ mkRat 123 1000 := by
  refine ⟨rfl, rfl, by decide⟩

/-- **C8 (amended)** — for every ledger state, `get_snapshot` returns a
record whose keys are exactly `total_cost`, `total_risk`, `base_confidence`,
`confidence_adjustments` and `final_confidence` (no `is_blocked`), with the
four scalar numeric fields rounded to 2 decimals and the adjustment list
passed through unrounded; the ledger state is left unchanged (the method only
reads it — the embedding is a pure function of the state). -/
theorem c8_get_snapshot (L : AccountingLedger) :
    (AccountingLedger.get_snapshot L).map (fun p => p.1) =
      ["total_cost", "total_risk", "base_confidence",
       "confidence_adjustments", "final_confidence"] ∧
    dictGet (AccountingLedger.get_snapshot L) "total_cost" =
      some (.num (pyRound2 L.total_cost)) ∧
    dictGet (AccountingLedger.get_snapshot L) "total_risk" =
      some (.num (pyRound2 L.total_risk)) ∧
    dictGet (AccountingLedger.get_snapshot L) "base_confidence" =
      some (.num (pyRound2 L.base_confidence)) ∧
    dictGet (AccountingLedger.get_snapshot L) "confidence_adjustments" =
      some (.adjs L.confidence_adjustments) ∧
    dictGet (AccountingLedger.get_snapshot L) "final_confidence" =
      some (.num (pyRound2 L.final_confidence)) ∧
    dictGet (AccountingLedger.get_snapshot L) "is_blocked" = none :=
  ⟨rfl, rfl, rfl, rfl, rfl, rfl, rfl⟩

/-- **C4 counterexample** — an `AccountingLedger` may be constructed with any
`base_confidence`; `__init__` copies it into `final_confidence` without
clamping, so a ledger built with base 1.5 and no method calls has
`final_confidence = 1.5 ∉ [0, 1]`, refuting "for every AccountingLedger …
final_confidence is always in [0, 1]" as stated. -/
theorem c4_counterexample :
    ¬ (0 ≤ (AccountingLedger.init (mkRat 3 2)).final_confidence ∧
        (AccountingLedger.init (mkRat 3 2)).final_confidence ≤ 1) := by
  decide

/-- **C4 (amended)** — for every ledger constructed with a base confidence in
`[0, 1]` (the system creates ledgers at base 0) and every sequence of
`add_cost`, `add_risk`, `adjust_confidence`, `set_base_confidence` and
`force_block` calls, `final_confidence` stays in `[0, 1]`; immediately after
`force_block` the confidence is exactly 0.0 and `total_risk` is 1.0; and
after `force_block` no subsequent sequence of the five calls (in particular
no `adjust_confidence`) can move `final_confidence` away from 0.0 — the block
is irreversible within the run. -/
theorem c4_ledger_invariants :
    (∀ (b : ℚ) (ops : List LedgerOp), 0 ≤ b → b ≤ 1 →
      0 ≤ (applyOps (AccountingLedger.init b) ops).final_confidence ∧
        (applyOps (AccountingLedger.init b) ops).final_confidence ≤ 1) ∧
    (∀ L : AccountingLedger,
      (L.force_block).final_confidence = 0 ∧ (L.force_block).total_risk = 1) ∧
    (∀ (L : AccountingLedger) (ops : List LedgerOp),
      (applyOps L.force_block ops).final_confidence = 0) := by
  refine ⟨?_, ?_, ?_⟩
  · intro b ops hb0 hb1
    exact applyOps_induction
      (fun L => 0 ≤ L.final_confidence ∧ L.final_confidence ≤ 1)
      (fun L op h => applyOp_range L op h.1 h.2) ops _ ⟨hb0, hb1⟩
  · intro L
    exact ⟨(force_block_state L).1, (force_block_state L).2.1⟩
  · intro L ops
    have h := applyOps_induction
      (fun M => M.is_blocked = true ∧ M.final_confidence = 0)
      (fun M op h => applyOp_blocked M op h.1 h.2) ops L.force_block
      ⟨(force_block_state L).2.2, (force_block_state L).1⟩
    exact h.2

/-- **C4 witness** — the amended invariant applied to a concrete ledger
(base 0.5) and a concrete call sequence ending in a large upward
adjustment. -/
theorem c4_witness :
    0 ≤ (applyOps (AccountingLedger.init (mkRat 1 2))
        [LedgerOp.add_cost 2 "tokens",
         LedgerOp.adjust_confidence (mkRat 2 1) "verifier" "boost"]).final_confidence ∧
      (applyOps (AccountingLedger.init (mkRat 1 2))
        [LedgerOp.add_cost 2 "tokens",
         LedgerOp.adjust_confidence (mkRat 2 1) "verifier" "boost"]).final_confidence ≤ 1 :=
  c4_ledger_invariants.1 (mkRat 1 2)
    [LedgerOp.add_cost 2 "tokens",
     LedgerOp.adjust_confidence (mkRat 2 1) "verifier" "boost"]
    (by decide) (by decide)

/-- A persisted verification-pipeline RSL document (the failing input for
replay). -/
def c1DocResearch : RSLDocument :=
  { rsl_version := "0.1"
    task :=
      { task_id := "T1"
        objective := "Verify the claim against the provided document"
        domain := "research_verification"
        created_at := "2026-01-01T00:00:00"
        inputs :=
          ⟨some "Model X improves accuracy by 15 percent on Dataset Y.",
           some "docs/paper.txt"⟩ }
    run := ⟨"R1", "FINALIZED"⟩
    steps := []
    contradictions := []
    final_conclusion := ⟨"The claim is SUPPORTED by the evidence.",
      mkRat 9 10, [], [], "2026-01-01T00:00:05"⟩ }

/-- The same document with a non-verification domain. -/
def c1DocFinance : RSLDocument :=
  { c1DocResearch with task := { c1DocResearch.task with domain := "finance" } }

/-- **C1** — evaluation of `replay_run` at the failing input: for a persisted
document of the supported domain `research_verification` the function does
*not* return the pair of documents; the kernel call raises `TypeError`
because `replay_run` passes the keyword arguments `enable_memory_writes` and
`parent_run_id`, which `run_paper_verification_task` does not declare.  For
any other domain the named `ValueError` is raised as the claim says. -/
theorem c1_replay_run_eval :
    replay_run c1DocResearch =
      .error (.typeError
        ("run_paper_verification_task() got an unexpected keyword argument " ++
          sq ++ "enable_memory_writes" ++ sq)) ∧
    replay_run c1DocFinance =
      .error (.valueError "Replay not supported for domain: finance") := by
  exact ⟨rfl, rfl⟩

/-- Is the step already bound to a TOOL-type executor (either the bare
string `"tool"` or a structured spec of type `"TOOL"`)?  These are exactly
the two early-return guards of `route_executor`. -/
def boundToTool (step : Step) : Bool :=
  match step.executor with
  | some (.str s) => pyLower s == "tool"
  | some (.spec e) => e.type == "TOOL"
  | none => false

/-- **C7** — `route_executor` resolves with the precedence, highest first:
(1) a step already bound to a TOOL-type executor keeps a TOOL executor — a
structured TOOL spec is returned unchanged and a bare `"tool"` string becomes
the TOOL spec, never a model; (2) otherwise the step-position override
`"S{index+1}"` in `routing.step_overrides` wins; (3) otherwise the domain
override in `routing.domain_overrides`; (4) otherwise
`routing.default_model_executor` (defaulting to `"gpt_stub"`); and
`resolve_and_attach_executor` stores the resolved spec into the step's
executor field. -/
theorem c7_route_executor (policy : Policy) (domain : String) (step : Step) :
    (∀ e : ExecutorSpec, step.executor = some (.spec e) → e.type = "TOOL" →
      route_executor policy domain step = e) ∧
    (∀ s : String, step.executor = some (.str s) → pyLower s = "tool" →
      route_executor policy domain step = ⟨"TOOL", "tool_executor", []⟩) ∧
    (boundToTool step = false →
      route_executor policy domain step =
        match dictGet (policy.routing.getD emptyRouting).step_overrides
            ("S" ++ toString (step.step_index + 1)) with
        | some n => ⟨"MODEL", n, []⟩
        | none =>
          match dictGet (policy.routing.getD emptyRouting).domain_overrides
              domain with
          | some n => ⟨"MODEL", n, []⟩
          | none =>
            ⟨"MODEL",
             (policy.routing.getD emptyRouting).default_model_executor.getD
               "gpt_stub", []⟩) ∧
    resolve_and_attach_executor policy domain step =
      { step with executor := some (.spec (route_executor policy domain step)) } := by
  refine ⟨?_, ?_, ?_, rfl⟩
  · intro e he ht
    simp [route_executor, he, ht]
  · intro s hs ht
    simp [route_executor, hs, ht]
  · intro hbt
    have hroute : route_executor policy domain step =
        modelRouteFallback policy domain step := by
      rcases hex : step.executor with _ | pe
      · simp [route_executor, hex]
      · cases pe with
        | str s =>
          have hb : (pyLower s == "tool") = false := by
            simpa [boundToTool, hex] using hbt
          simp [route_executor, hex, hb]
        | spec e =>
          have hb : (e.type == "TOOL") = false := by
            simpa [boundToTool, hex] using hbt
          simp [route_executor, hex, hb]
    rw [hroute]
    unfold modelRouteFallback
    rcases h1 : dictGet (policy.routing.getD emptyRouting).step_overrides
        ("S" ++ toString (step.step_index + 1)) with _ | n1 <;>
      rcases h2 : dictGet (policy.routing.getD emptyRouting).domain_overrides
          domain with _ | n2 <;>
        simp [h1, h2]

/-- Routing table used by the C7 witness: a step override for position S2
and a domain override for the same domain, so the step override must win. -/
def c7Routing : Routing :=
  ⟨[("S2", "o3_stub")], [("research_verification", "retriever_stub")],
    some "gpt_stub"⟩

/-- Policy carrying `c7Routing`. -/
def c7Policy : Policy := ⟨some "1.0", [], none, some c7Routing⟩

/-- A model-bound step at index 1 (logical position S2). -/
def c7StepModel : Step :=
  { step_id := some "S-uuid-2"
    step_index := 1
    action := some "Retrieve evidence snippets from the document"
    status := some "PENDING"
    executor := some (.spec ⟨"MODEL", "unrouted", []⟩)
    evidence_required := true
    evidence := []
    execution_output := none
    verification := none
    revisions := [] }

/-- The same step already bound to a TOOL executor. -/
def c7StepTool : Step :=
  { c7StepModel with executor := some (.spec ⟨"TOOL", "calculator", []⟩) }

/-- **C7 witness** — at the concrete policy the step-position override beats
the domain override, and a TOOL-bound step keeps its TOOL executor. -/
theorem c7_witness :
    route_executor c7Policy "research_verification" c7StepModel =
      ⟨"MODEL", "o3_stub", []⟩ ∧
    route_executor c7Policy "research_verification" c7StepTool =
      ⟨"TOOL", "calculator", []⟩ := by
  constructor
  · have h :=
      (c7_route_executor c7Policy "research_verification" c7StepModel).2.2.1
        (by decide)
    exact h.trans (by decide)
  · exact (c7_route_executor c7Policy "research_verification" c7StepTool).1
      ⟨"TOOL", "calculator", []⟩ rfl rfl

/-- **C6** — `verify_step` raises `VerificationError` exactly when one of
`step_id`, `action`, `status`, `executor` is absent, when evidence is
required but empty, or when `execution_output` is unset; on every other step
it returns a SUPPORTED verification whose `checked_evidence_ids` are exactly
the ids of the evidence items present on the step. -/
theorem c6_verify_step (now : String) (step : Step) :
    ((∃ msg, verify_step now step = .error msg) ↔
      (step.step_id = none ∨ step.action = none ∨ step.status = none ∨
        step.executor = none ∨
        (step.evidence_required = true ∧ step.evidence = []) ∨
        step.execution_output = none)) ∧
    (∀ v, verify_step now step = .ok v →
      v.result = "SUPPORTED" ∧
      v.checked_evidence_ids = step.evidence.map (fun ev => ev.evidence_id)) := by
  cases h1 : step.step_id <;> cases h2 : step.action <;>
    cases h3 : step.status <;> cases h4 : step.executor <;>
    cases h5 : step.execution_output <;> cases h6 : step.evidence_required <;>
    cases h7 : step.evidence <;>
    simp_all [verify_step]

/-- A structurally complete step for the C6 witness. -/
def c6Step : Step :=
  { step_id := some "S1"
    step_index := 0
    action := some "Extract the primary claim from the paragraph"
    status := some "EXECUTED"
    executor := some (.str "model")
    evidence_required := true
    evidence := [⟨"E1", "sentence_retriever",
      "Model X improved accuracy by 14.8 percent."⟩]
    execution_output := some "claim extracted"
    verification := none
    revisions := [] }

/-- The verification `verify_step` produces for `c6Step`. -/
def c6ExpectedVerification : Verification :=
  { result := "SUPPORTED"
    confidence := mkRat 19 20
    checked_evidence_ids := ["E1"]
    verified_at := "t0"
    notes := "Verified with 1 evidence item(s)" }

/-- **C6 witness** — the theorem applied to a concrete complete step. -/
theorem c6_witness :
    verify_step "t0" c6Step = .ok c6ExpectedVerification ∧
    c6ExpectedVerification.result = "SUPPORTED" ∧
    c6ExpectedVerification.checked_evidence_ids = ["E1"] := by
  have heq : verify_step "t0" c6Step = .ok c6ExpectedVerification := rfl
  have h := (c6_verify_step "t0" c6Step).2 c6ExpectedVerification heq
  exact ⟨heq, h.1, h.2.trans (by decide)⟩

/-- The C5 claim-side matching condition: a memory item contributes a
contradiction exactly when it is a FACT, its lower-cased content contains
every whitespace token of the lower-cased subject, its content yields a
percent, and that percent differs from the current value by strictly more
than the threshold.  Yields the item together with its extracted percent. -/
def c5_hit (current_subject : String) (current_value threshold : ℚ)
    (item : MemoryItem) : Option (MemoryItem × ℚ) :=
  match extract_percent item.content with
  | none => none
  | some p =>
    if item.type = "FACT" ∧
        ((pySplit (pyLower current_subject)).all
          (fun part => pyContains (pyLower item.content) part)) = true ∧
        threshold < |p - current_value| then
      some (item, p)
    else none

/-- The detector's loop agrees with the claim-side filter, record by
record. -/
theorem detectAux_proj (newId : ℕ → String) (now : String)
    (current_subject : String) (current_value : ℚ) (unit : String)
    (threshold : ℚ) :
    ∀ (k : ℕ) (items : List MemoryItem),
      (detectAux newId now current_subject current_value unit threshold k
          items).map
        (fun r => (r.prior_memory_id, r.prior_value, r.current_value,
          r.severity)) =
      (items.filterMap (c5_hit current_subject current_value threshold)).map
        (fun ip => (ip.1.memory_id, ip.2, current_value, "HIGH")) := by
  intro k items
  induction items generalizing k with
  | nil => rfl
  | cons item rest ih =>
    by_cases hty : item.type = "FACT"
    · by_cases htok : ((pySplit (pyLower current_subject)).all
          (fun part => pyContains (pyLower item.content) part)) = true
      · rcases hp : extract_percent item.content with _ | p
        · simp [detectAux, c5_hit, hty, htok, hp, ih]
        · by_cases hth : threshold < qAbs (qSub p current_value)
          · have hth2 : threshold < |p - current_value| := by
              rwa [qSub_eq, qAbs_eq] at hth
            simp [detectAux, c5_hit, hty, htok, hp, hth, hth2, ih,
              mkContradiction]
          · have hth2 : ¬ threshold < |p - current_value| := by
              rwa [qSub_eq, qAbs_eq] at hth
            simp [detectAux, c5_hit, hty, htok, hp, hth, hth2, ih]
      · rcases hp : extract_percent item.content with _ | p <;>
          simp [detectAux, c5_hit, hty, htok, hp, ih]
    · rcases hp : extract_percent item.content with _ | p <;>
        simp [detectAux, c5_hit, hty, hp, ih]

/-- The prior FACT about Model X on Dataset Y used by the C5 instance. -/
def c5Fact : MemoryItem :=
  ⟨"M1", "FACT", "Model X achieved a 15 percent improvement on Dataset Y."⟩

/-- A memory store: a CONTRADICTION entry, the matching FACT, and a FACT
about a different subject. -/
def c5Memory : List MemoryItem :=
  [⟨"M0", "CONTRADICTION", "Model X Dataset Y mismatch 99 percent"⟩,
   c5Fact,
   ⟨"M2", "FACT", "Model Z achieved a 3 percent improvement on Dataset Q."⟩]

/-- **C5** — `detect_numeric_contradictions` produces a HIGH-severity record
exactly for the FACT items whose lower-cased content contains every
whitespace token of the lower-cased subject and whose first extracted
percent differs from the current value by strictly more than the threshold;
each record carries the item's memory id as `prior_memory_id`, its percent as
`prior_value` and the current value as `current_value`.  The function is
pure, so the memory list is not mutated.  In particular the store `c5Memory`
checked against a 20-percent claim with threshold 0.5 yields exactly one
contradiction: prior value 15, current value 20, referencing `"M1"`. -/
theorem c5_detect_numeric_contradictions (newId : ℕ → String) (now : String)
    (memory_items : List MemoryItem) (current_subject : String)
    (current_value : ℚ) (unit : String) (threshold : ℚ) :
    (detect_numeric_contradictions newId now memory_items current_subject
        current_value unit threshold).map
      (fun r => (r.prior_memory_id, r.prior_value, r.current_value,
        r.severity)) =
      (memory_items.filterMap
        (c5_hit current_subject current_value threshold)).map
        (fun ip => (ip.1.memory_id, ip.2, current_value, "HIGH")) ∧
    detect_numeric_contradictions newId now c5Memory "Model X Dataset Y"
        (mkRat 20 1) "%" (mkRat 1 2) =
      [{ contradiction_id := newId 0
         step_ids := ["S3"]
         description :=
           "Numeric conflict detected: current claim states 20.0%, but " ++
             "prior memory recorded 15.0% for the same subject. " ++
             "Difference of 5.0% exceeds threshold of 0.5%."
         severity := "HIGH"
         detected_by := ⟨"RULE", "numeric_conflict_detector"⟩
         detected_at := now
         prior_memory_id := "M1"
         prior_value := mkRat 15 1
         current_value := mkRat 20 1 }] :=
  ⟨detectAux_proj newId now current_subject current_value unit threshold 0
      memory_items,
   rfl⟩

/-- **C2** — for every claim and non-empty evidence list in which the claim
yields a percent `cp`, the evidence yields a percent `ep`, and no required
entity (Model X / Dataset Y mentioned by the claim) is missing from the
evidence, `verify_claim_support` returns: on difference 0, SUPPORTED 0.90
(PARTIALLY_SUPPORTED 0.75 with a scope issue when a scope limiter is
present); on difference in (0, 0.5], PARTIALLY_SUPPORTED 0.75 (0.65 when
scope-limited) with a rounding-discrepancy issue naming both percent values;
on difference above 0.5, WEAK 0.45.  (`mkRat a b` is the rational `a / b`.) -/
theorem c2_verify_claim_support (claim : String)
    (evidence_sentences : List String) (cp ep : ℚ)
    (hne : evidence_sentences ≠ [])
    (hcp : extract_percent_value claim = some cp)
    (hep : evidencePercent evidence_sentences = some ep)
    (hmx : pyContains (pyLower claim) "model x" = true →
      pyContains (combinedEvidence evidence_sentences) "model x" = true)
    (hdy : pyContains (pyLower claim) "dataset y" = true →
      pyContains (combinedEvidence evidence_sentences) "dataset y" = true) :
    verify_claim_support claim evidence_sentences =
      if |cp - ep| = 0 then
        match scopeLimiterFound evidence_sentences with
        | some limiter =>
          ("PARTIALLY_SUPPORTED", mkRat 3 4, [scopeIssue limiter])
        | none => ("SUPPORTED", mkRat 9 10, ([] : List String))
      else if |cp - ep| ≤ mkRat 1 2 then
        match scopeLimiterFound evidence_sentences with
        | some limiter =>
          ("PARTIALLY_SUPPORTED", mkRat 13 20,
            [roundingIssue cp ep, scopeIssue limiter])
        | none => ("PARTIALLY_SUPPORTED", mkRat 3 4, [roundingIssue cp ep])
      else ("WEAK", mkRat 9 20, [mismatchIssue cp ep]) := by
  have h0 : evidence_sentences.isEmpty = false := by
    cases evidence_sentences with
    | nil => exact absurd rfl hne
    | cons a l => rfl
  have hm1 : (!pyContains (combinedEvidence evidence_sentences) "model x" &&
      pyContains (pyLower claim) "model x") = false := by
    cases hc : pyContains (pyLower claim) "model x" with
    | false => simp
    | true => simp [hmx hc]
  have hm2 : (!pyContains (combinedEvidence evidence_sentences) "dataset y" &&
      pyContains (pyLower claim) "dataset y") = false := by
    cases hc : pyContains (pyLower claim) "dataset y" with
    | false => simp
    | true => simp [hdy hc]
  have hq : qAbs (qSub cp ep) = |cp - ep| := by rw [qSub_eq, qAbs_eq]
  simp only [verify_claim_support, h0, Bool.false_eq_true, if_false,
    hcp, hep, hm1, hm2, Option.isSome_some,
    Option.isNone_some, Bool.and_false, hq]

/-- The claim of the C2 instance: 15 percent on the shared entities. -/
def c2Claim : String := "Model X improves accuracy by 15 percent on Dataset Y."

/-- Evidence reporting 14.8 percent on the same entities. -/
def c2Evidence : List String :=
  ["Model X improved accuracy by 14.8 percent on Dataset Y."]

/-- **C2 witness** — the theorem instantiated at claim "15 percent" against
evidence "14.8 percent" on the same entities: PARTIALLY_SUPPORTED with
confidence 0.75 and a rounding-discrepancy issue naming both values. -/
theorem c2_witness :
    verify_claim_support c2Claim c2Evidence =
      ("PARTIALLY_SUPPORTED", mkRat 3 4,
        ["Rounding discrepancy: claim states 15.0%, evidence shows 14.8%"]) := by
  have hq : |(mkRat 15 1 : ℚ) - mkRat 74 5| =
      qAbs (qSub (mkRat 15 1) (mkRat 74 5)) := by
    rw [qSub_eq, qAbs_eq]
  have h := c2_verify_claim_support c2Claim c2Evidence (mkRat 15 1)
    (mkRat 74 5) (by decide) (by decide) (by decide) (by decide) (by decide)
  rw [h, hq]
  decide

/-- The C3 claim-side per-step blocking condition of the
`fail_closed_if_unverified` scan: missing verification while
evidence-required, result UNKNOWN, or result WEAK while evidence-required. -/
def c3_isViolating (step : Step) : Bool :=
  match step.verification with
  | none => step.evidence_required
  | some v =>
    v.result == "UNKNOWN" || (v.result == "WEAK" && step.evidence_required)

/-- The blocking reason the scan reports for a violating step. -/
def c3_reasonOf (step : Step) : String :=
  match step.verification with
  | none => missingVerificationReason step
  | some v =>
    if v.result == "UNKNOWN" then unknownReason step else weakReason step

/-- The C3 claim-side decision, in the claimed fixed order: (a) under
`fail_closed_if_unverified`, the first violating step in list order blocks;
(b) otherwise a conclusion confidence below the domain
`min_confidence_to_finalize` blocks; (c) otherwise a confidence below the
global `block_if_confidence_below` blocks. -/
def c3_decision (policy : Policy) (domain : String)
    (final_conclusion : FinalConclusion) (steps : List Step) :
    Option String :=
  let dd := (dictGet policy.domain_defaults domain).getD emptyDomainDefaults
  let gr := policy.global_rules.getD emptyGlobalRules
  let scan :=
    if dd.fail_closed_if_unverified.getD false then
      (steps.find? c3_isViolating).map c3_reasonOf
    else none
  match scan with
  | some r => some r
  | none =>
    let c := final_conclusion.confidence
    let minc := dd.min_confidence_to_finalize.getD 0
    let gthr := gr.block_if_confidence_below.getD 0
    if c < minc then
      some ("Confidence " ++ pyFormat2 c ++ " is below domain minimum " ++
        pyFormat2 minc ++ ".")
    else if c < gthr then
      some ("Confidence " ++ pyFormat2 c ++ " is below global threshold " ++
        pyFormat2 gthr ++ ".")
    else none

/-- The source's scan loop is the claim-side first-violating-step search. -/
theorem failClosedScan_eq (steps : List Step) :
    failClosedScan steps = (steps.find? c3_isViolating).map c3_reasonOf := by
  induction steps with
  | nil => rfl
  | cons step rest ih =>
    rcases hv : step.verification with _ | v
    · cases her : step.evidence_required <;>
        simp [failClosedScan, List.find?_cons, c3_isViolating, c3_reasonOf,
          hv, her, ih]
    · cases hu : v.result == "UNKNOWN" <;>
        cases hw : (v.result == "WEAK" && step.evidence_required) <;>
          simp [failClosedScan, List.find?_cons, c3_isViolating, c3_reasonOf,
            hv, hu, hw, ih]

/-- **C3** — `enforce_finalization_policy` blocks exactly according to the
fixed-order decision `c3_decision` ((a) first violating step under
fail-closed, else (b) domain minimum, else (c) global threshold); whenever it
blocks, the returned conclusion's content is the global block message
followed by `" Reason: "` and the specific reason — in particular it starts
with the block message — and its confidence is exactly 0; when no condition
triggers, the conclusion is returned unchanged. -/
theorem c3_enforce_finalization (policy : Policy) (domain : String)
    (final_conclusion : FinalConclusion) (steps : List Step) :
    enforce_finalization_policy policy domain final_conclusion steps =
      match c3_decision policy domain final_conclusion steps with
      | none => final_conclusion
      | some reason =>
        { final_conclusion with
            content :=
              ((policy.global_rules.getD emptyGlobalRules).block_message.getD
                  "Output blocked by policy.") ++ " Reason: " ++ reason
            confidence := 0 } := by
  simp only [enforce_finalization_policy, c3_decision, failClosedScan_eq]

/-- Membership through sorted insertion. -/
theorem mem_insertSorted {a x : ℕ} {l : List ℕ} :
    a ∈ insertSorted x l ↔ a = x ∨ a ∈ l := by
  induction l with
  | nil => simp [insertSorted]
  | cons y ys ih =>
    by_cases h : x ≤ y
    · simp [insertSorted, h]
    · simp [insertSorted, h, ih]
      tauto

/-- Sorting preserves membership. -/
theorem mem_sortNat {a : ℕ} {l : List ℕ} : a ∈ sortNat l ↔ a ∈ l := by
  induction l with
  | nil => simp [sortNat]
  | cons x xs ih =>
    show a ∈ insertSorted x (sortNat xs) ↔ _
    rw [mem_insertSorted, ih]
    simp

/-- Duplicate removal preserves membership. -/
theorem mem_dedupNat {l : List ℕ} : ∀ {a : ℕ}, a ∈ dedupNat l ↔ a ∈ l := by
  induction l with
  | nil => intro a; simp [dedupNat]
  | cons x xs ih =>
    intro a
    by_cases h : x ∈ dedupNat xs
    · have hx : x ∈ xs := ih.mp h
      simp [dedupNat, h, ih]
      intro ha
      subst ha
      exact hx
    · simp [dedupNat, h, ih]

/-- The step-index dict answers a key exactly when the key occurs among its
entries. -/
theorem lookupIdx_isSome_iff {m : List (ℕ × Step)} {idx : ℕ} :
    (lookupIdx m idx).isSome = true ↔ idx ∈ m.map (fun p => p.1) := by
  induction m with
  | nil => simp [lookupIdx]
  | cons p rest ih =>
    by_cases h : p.1 = idx
    · simp [lookupIdx, List.find?, h]
    · have hb : (p.1 == idx) = false := by simpa using h
      simp only [lookupIdx, List.find?, hb] at ih ⊢
      simp [ih, h]
      tauto

/-- The diff's index axis is the union of the two documents' index sets. -/
theorem mem_diffAllIndices {idx : ℕ} {run_a run_b : RSLDocument} :
    idx ∈ diffAllIndices run_a run_b ↔
      idx ∈ (stepIndexMap run_a.steps).map (fun p => p.1) ∨
        idx ∈ (stepIndexMap run_b.steps).map (fun p => p.1) := by
  simp [diffAllIndices, mem_sortNat, mem_dedupNat]

/-- Two steps agreeing on the four compared fields produce no field
changes. -/
theorem stepChanges_eq_nil {s_a s_b : Step}
    (h1 : s_a.execution_output = s_b.execution_output)
    (h2 : s_a.verification.map (fun v => v.result) =
      s_b.verification.map (fun v => v.result))
    (h3 : s_a.verification.map (fun v => v.confidence) =
      s_b.verification.map (fun v => v.confidence))
    (h4 : s_a.revisions.length = s_b.revisions.length) :
    stepChanges s_a s_b = [] := by
  simp [stepChanges, h1, h2, h3, h4]

/-- **C9** — `diff_runs` is a total function of the two documents (it never
raises), aligns steps by `step_index`, and: every ADDED entry's index is
present only in run B and every REMOVED entry's index only in run A (never an
index shared by both); and whenever the two documents have the same index
set, agree at every shared index on `execution_output`, verification result,
verification confidence and revision count, and agree on the final
conclusion's content and confidence, the result is the well-defined
"equivalent" outcome: empty `step_diffs` and no `conclusion_diff`. -/
theorem c9_diff_runs (run_a run_b : RSLDocument) :
    (∀ entry ∈ (diff_runs run_a run_b).step_diffs,
      (∀ idx d, entry = StepDiffEntry.added idx d →
        lookupIdx (stepIndexMap run_a.steps) idx = none ∧
        (lookupIdx (stepIndexMap run_b.steps) idx).isSome = true) ∧
      (∀ idx d, entry = StepDiffEntry.removed idx d →
        (lookupIdx (stepIndexMap run_a.steps) idx).isSome = true ∧
        lookupIdx (stepIndexMap run_b.steps) idx = none)) ∧
    ((∀ idx : ℕ, (lookupIdx (stepIndexMap run_a.steps) idx).isSome =
        (lookupIdx (stepIndexMap run_b.steps) idx).isSome) →
     (∀ (idx : ℕ) (s_a s_b : Step),
        lookupIdx (stepIndexMap run_a.steps) idx = some s_a →
        lookupIdx (stepIndexMap run_b.steps) idx = some s_b →
        s_a.execution_output = s_b.execution_output ∧
        s_a.verification.map (fun v => v.result) =
          s_b.verification.map (fun v => v.result) ∧
        s_a.verification.map (fun v => v.confidence) =
          s_b.verification.map (fun v => v.confidence) ∧
        s_a.revisions.length = s_b.revisions.length) →
     run_a.final_conclusion.content = run_b.final_conclusion.content →
     run_a.final_conclusion.confidence = run_b.final_conclusion.confidence →
     (diff_runs run_a run_b).step_diffs = [] ∧
       (diff_runs run_a run_b).conclusion_diff = none) := by
  constructor
  · intro entry hmem
    have hmem' : entry ∈ (diffAllIndices run_a run_b).filterMap
        (diffStepEntry (stepIndexMap run_a.steps)
          (stepIndexMap run_b.steps)) := hmem
    obtain ⟨idx0, hidx0, hf⟩ := List.mem_filterMap.mp hmem'
    have hunion := mem_diffAllIndices.mp hidx0
    constructor
    · intro idx d heq
      subst heq
      unfold diffStepEntry at hf
      rcases h1 : lookupIdx (stepIndexMap run_a.steps) idx0 with _ | sa <;>
        rcases h2 : lookupIdx (stepIndexMap run_b.steps) idx0 with _ | sb <;>
        rw [h1, h2] at hf
      · -- both sides miss the index: impossible, the index is in the union
        exfalso
        rcases hunion with hA | hB
        · have := lookupIdx_isSome_iff.mpr hA
          rw [h1] at this
          simp at this
        · have := lookupIdx_isSome_iff.mpr hB
          rw [h2] at this
          simp at this
      · simp only [Option.some_inj] at hf
        cases hf
        exact ⟨h1, by rw [h2]; rfl⟩
      · simp only [Option.some_inj] at hf
        cases hf
      · dsimp only at hf
        split at hf
        · cases hf
        · simp only [Option.some_inj] at hf
          cases hf
    · intro idx d heq
      subst heq
      unfold diffStepEntry at hf
      rcases h1 : lookupIdx (stepIndexMap run_a.steps) idx0 with _ | sa <;>
        rcases h2 : lookupIdx (stepIndexMap run_b.steps) idx0 with _ | sb <;>
        rw [h1, h2] at hf
      · simp only [Option.some_inj] at hf
        cases hf
      · simp only [Option.some_inj] at hf
        cases hf
      · simp only [Option.some_inj] at hf
        cases hf
        exact ⟨by rw [h1]; rfl, h2⟩
      · dsimp only at hf
        split at hf
        · cases hf
        · simp only [Option.some_inj] at hf
          cases hf
  · intro hkeys hfields hc1 hc2
    constructor
    · show diffStepDiffs run_a run_b = []
      apply List.filterMap_eq_nil_iff.mpr
      intro idx hidx
      have hunion := mem_diffAllIndices.mp hidx
      unfold diffStepEntry
      rcases h1 : lookupIdx (stepIndexMap run_a.steps) idx with _ | sa <;>
        rcases h2 : lookupIdx (stepIndexMap run_b.steps) idx with _ | sb
      · exfalso
        rcases hunion with hA | hB
        · have := lookupIdx_isSome_iff.mpr hA
          rw [h1] at this
          simp at this
        · have := lookupIdx_isSome_iff.mpr hB
          rw [h2] at this
          simp at this
      · exfalso
        have := hkeys idx
        rw [h1, h2] at this
        simp at this
      · exfalso
        have := hkeys idx
        rw [h1, h2] at this
        simp at this
      · have hf := hfields idx sa sb h1 h2
        have hnil := stepChanges_eq_nil hf.1 hf.2.1 hf.2.2.1 hf.2.2.2
        simp [hnil]
    · show diffConclusion run_a run_b = none
      simp [diffConclusion, hc1, hc2]

/-- The shared final conclusion of the C9 witness documents. -/
def c9Conclusion : FinalConclusion :=
  ⟨"The claim is SUPPORTED by the evidence.", mkRat 9 10, [], [], "t9"⟩

/-- A finalized document with no steps (run A). -/
def c9DocA : RSLDocument :=
  ⟨"0.1", ⟨"TA", "Verify the claim", "research_verification", "t0",
    ⟨none, none⟩⟩, ⟨"RA", "FINALIZED"⟩, [], [], c9Conclusion⟩

/-- An equivalent document from an independent run (fresh ids and
timestamps, same compared fields). -/
def c9DocB : RSLDocument :=
  ⟨"0.1", ⟨"TB", "Verify the claim", "research_verification", "t1",
    ⟨none, none⟩⟩, ⟨"RB", "FINALIZED"⟩, [], [], c9Conclusion⟩

/-- A verified step present only in run D. -/
def c9Step : Step :=
  { step_id := some "SB1"
    step_index := 0
    action := some "Extract the primary claim from the paragraph"
    status := some "VERIFIED"
    executor := some (.str "model")
    evidence_required := false
    evidence := []
    execution_output := some "claim extracted"
    verification := none
    revisions := [] }

/-- `c9DocB` with one extra step, so diffing against `c9DocA` yields an
ADDED entry. -/
def c9DocD : RSLDocument := { c9DocB with steps := [c9Step] }

/-- **C9 witness** — the theorem applied to concrete documents: two
equivalent runs diff to empty `step_diffs` and no `conclusion_diff`, and an
ADDED entry's index is indeed present only in the second document. -/
theorem c9_witness :
    ((diff_runs c9DocA c9DocB).step_diffs = [] ∧
      (diff_runs c9DocA c9DocB).conclusion_diff = none) ∧
    (lookupIdx (stepIndexMap c9DocA.steps) 0 = none ∧
      (lookupIdx (stepIndexMap c9DocD.steps) 0).isSome = true) := by
  constructor
  · exact (c9_diff_runs c9DocA c9DocB).2 (fun idx => rfl)
      (fun idx sa sb ha hb => Option.noConfusion ha) rfl rfl
  · exact ((c9_diff_runs c9DocA c9DocD).1
      (StepDiffEntry.added 0 "Step present in Run B but not Run A")
      (by decide)).1 0 "Step present in Run B but not Run A" rfl

end ReasonOS
